import Mathlib

/-! Slack → completion-API relay (`main.go`, `caller/main.go`)

A shallow embedding of the relay: the duplicate filter (`lastPrompt`), the
completion client (`chatGPTResponse`), the relay handler (`handleAppMention`),
the URL-verification handshake and the two transport bindings (the `/events`
closure of the standalone server and the serverless `handler`).

Conventions of the embedding.

* Go strings are Lean `String`s.  Every string the program handles comes out of
  a JSON decoder or an environment lookup, hence is valid UTF-8, so byte-wise
  `strings.HasPrefix`/`strings.TrimPrefix` agree with their code-point versions.
* The process-wide variable `lastPrompt` and the outbound calls made so far are
  carried in an explicit `State`.
* The libraries the program calls (HTTP client, `encoding/json`, the Slack SDK,
  `godotenv`) are collaborators outside the repository; their behaviour is a
  parameter `Env` of every operation.
* A Go function either returns, panics, or ends the process through
  `log.Fatal`; this is the `Outcome` type.
* Writes to standard output (`fmt.Printf`, `fmt.Println`) are not recorded.
-/

namespace Relay

/-! ## Strings (`strings`, `html`, `unicode`) -/

/-- Go `unicode.IsSpace`: the Latin-1 spaces and the code points with the
Unicode `White_Space` property. -/
def isSpace (c : Char) : Bool :=
  let n := c.toNat
  n == 0x09 || n == 0x0A || n == 0x0B || n == 0x0C || n == 0x0D || n == 0x20 ||
  n == 0x85 || n == 0xA0 || n == 0x1680 || (0x2000 ≤ n && n ≤ 0x200A) ||
  n == 0x2028 || n == 0x2029 || n == 0x202F || n == 0x205F || n == 0x3000

/-- Go `strings.TrimLeftFunc(s, unicode.IsSpace)` on the code points. -/
def trimLeft (cs : List Char) : List Char :=
  cs.dropWhile isSpace

/-- Go `strings.TrimRightFunc(s, unicode.IsSpace)` on the code points. -/
def trimRight (cs : List Char) : List Char :=
  (cs.reverse.dropWhile isSpace).reverse

/-- Go `strings.TrimSpace`: the string without its leading and trailing white
space. -/
def TrimSpace (s : String) : String :=
  ⟨trimRight (trimLeft s.data)⟩

/-- Go `strings.HasPrefix(s, pre)`:
`len(s) >= len(pre) && s[:len(pre)] == pre`. -/
def HasPrefix (s pre : String) : Bool :=
  decide (pre.data.length ≤ s.data.length) && (s.data.take pre.data.length == pre.data)

/-- Go `strings.TrimPrefix(s, pre)`: `s[len(pre):]` when `s` has the prefix,
`s` itself otherwise. -/
def TrimPrefix (s pre : String) : String :=
  if HasPrefix s pre then ⟨s.data.drop pre.data.length⟩ else s

/-- The replacement table of Go `html.EscapeString`. -/
def escapeChar (c : Char) : List Char :=
  if c = '&' then "&amp;".data
  else if c = '\'' then "&#39;".data
  else if c = '<' then "&lt;".data
  else if c = '>' then "&gt;".data
  else if c = '"' then "&#34;".data
  else [c]

/-- Go `html.EscapeString`. -/
def EscapeString (s : String) : String :=
  ⟨s.data.flatMap escapeChar⟩

/-! ## Data model -/

/-- A Go `error` value, identified by its message (`err.Error()`). -/
structure GoError where
  msg : String
  deriving DecidableEq, Repr

/-- How a Go function call ends: it returns a value, it panics, or the process
is ended by `log.Fatal`. -/
inductive Outcome (α : Type) where
  | ret (a : α)
  | panicked
  | fatal
  deriving DecidableEq, Repr

/-- A value produced by `encoding/json` when decoding into `interface{}`:
`nil`, `bool`, `float64` (kept as its literal, the program never inspects it),
`string`, `[]interface{}` and `map[string]interface{}`. -/
inductive JSON where
  | null
  | bool (b : Bool)
  | number (lit : String)
  | string (s : String)
  | array (elems : List JSON)
  | object (members : List (String × JSON))

/-- One element of `messages`: the map with the keys `"role"` and `"content"`. -/
structure Message where
  role : String
  content : String
  deriving DecidableEq, Repr

/-- The map `data` that `chatGPTResponse` marshals and sends. -/
structure CompletionRequest where
  model : String
  messages : List Message
  max_tokens : Nat
  deriving DecidableEq, Repr

/-- The part of `http.Response` the program reads. -/
structure Response where
  StatusCode : Nat
  Body : String
  deriving DecidableEq, Repr

/-- An outbound call made by the program. -/
inductive Call where
  | completion (url contentType : String) (data : CompletionRequest)
  | postMessage (channel text : String)
  | authTest
  deriving DecidableEq, Repr

/-- Type `slackevents.AppMentionEvent`, the fields the program reads. -/
structure AppMentionEvent where
  User : String
  Channel : String
  Text : String
  deriving DecidableEq, Repr

/-- Type `slackevents.MessageEvent`, the fields the program reads. -/
structure MessageEvent where
  User : String
  Channel : String
  Text : String
  ChannelType : String := ""
  deriving DecidableEq, Repr

/-- The dynamic type of `eventsAPIEvent.InnerEvent.Data`, as the type switch of
the handlers sees it. -/
inductive InnerData where
  | appMention (ev : AppMentionEvent)
  | message (ev : MessageEvent)
  | other
  deriving DecidableEq, Repr

/-- Type `slackevents.EventsAPIEvent`, the fields the program reads. -/
structure EventsAPIEvent where
  Typ : String
  InnerEvent : InnerData
  deriving DecidableEq, Repr

/-- Type `slackevents.ChallengeResponse`. -/
structure ChallengeResponse where
  Challenge : String
  deriving DecidableEq, Repr

/-- Constant `slackevents.URLVerification`. -/
def URLVerification : String := "url_verification"

/-- Constant `slackevents.CallbackEvent`. -/
def CallbackEvent : String := "event_callback"

/-- The collaborators outside the repository. -/
structure Env where
  /-- Method `client.Post(url, contentType, body)`: a transport error or the
  response. -/
  Post : String → String → CompletionRequest → Except GoError Response
  /-- Call `json.NewDecoder(body).Decode(&result)` with
  `result : map[string]interface{}`: an error, or the decoded map (a JSON
  `null` leaves the map `nil`, which reads like the empty map). -/
  Decode : String → Except GoError (List (String × JSON))
  /-- Function `slackevents.ParseEvent(body, OptionNoVerifyToken())`. -/
  ParseEvent : String → Except GoError EventsAPIEvent
  /-- Call `json.Unmarshal(body, &response)` with
  `response : *slackevents.ChallengeResponse`: an error, or the pointer
  (a JSON `null` leaves it `nil`). -/
  UnmarshalChallenge : String → Except GoError (Option ChallengeResponse)
  /-- Function `godotenv.Load()`: the error it returns, if any. -/
  Load : Option GoError
  /-- Method `api.AuthTest()`: an error or `info.UserID`. -/
  AuthTest : Except GoError String

/-- The process-wide variable `lastPrompt` and the outbound calls made so far,
oldest first. -/
structure State where
  lastPrompt : String
  calls : List Call
  deriving DecidableEq, Repr

/-! ## Go maps and type assertions -/

/-- Index expression `m[k]` on a `map[string]interface{}`: the value, or the
`nil` interface when the key is absent. -/
def index (m : List (String × JSON)) (k : String) : JSON :=
  (m.lookup k).getD JSON.null

/-- Type assertion `v.([]interface{})`; panics on any other dynamic type. -/
def assertSlice : JSON → Outcome (List JSON)
  | .array elems => .ret elems
  | _ => .panicked

/-- Type assertion `v.(map[string]interface{})`; panics on any other dynamic
type. -/
def assertMap : JSON → Outcome (List (String × JSON))
  | .object members => .ret members
  | _ => .panicked

/-- Type assertion `v.(string)`; panics on any other dynamic type. -/
def assertString : JSON → Outcome String
  | .string s => .ret s
  | _ => .panicked

/-! ## Completion client and duplicate filter (`chatGPTResponse`) -/

/-- The completion endpoint. -/
def endpoint : String := "https://api.openai.com/v1/chat/completions"

/-- The fixed reply for an empty `choices` list. -/
def fallback : String := "すみません、現在お手伝いできません。"

/-- The request built from a prompt: the single user message, its content
HTML-escaped by the `range` loop, under the fixed model and token ceiling. -/
def requestData (prompt : String) : CompletionRequest :=
  let messages : List Message := [{ role := "user", content := prompt }]
  let messages := messages.map fun message =>
    { message with content := EscapeString message.content }
  { model := "gpt-3.5-turbo", messages := messages, max_tokens := 100 }

/-- The statements of `chatGPTResponse` after a status-200 response was
decoded: the unchecked type assertions on `result`. -/
def extractReply (result : List (String × JSON)) : Outcome (String × Option GoError) :=
  match assertSlice (index result "choices") with
  | .panicked => .panicked
  | .fatal => .fatal
  | .ret choices =>
    match choices with
    | [] => .ret (fallback, none)
    | c :: _ =>
      match assertMap c with
      | .panicked => .panicked
      | .fatal => .fatal
      | .ret firstChoice =>
        match assertMap (index firstChoice "message") with
        | .panicked => .panicked
        | .fatal => .fatal
        | .ret message =>
          match assertString (index message "content") with
          | .panicked => .panicked
          | .fatal => .fatal
          | .ret responseText => .ret (TrimSpace responseText, none)

/-- Function `chatGPTResponse(client, prompt)`.  Marshalling `data` cannot fail
(a map of strings and an integer), so that error branch is absent. -/
def chatGPTResponse (env : Env) (st : State) (prompt : String) :
    Outcome (String × Option GoError) × State :=
  if prompt = st.lastPrompt then
    (.ret ("", none), st)
  else
    let data := requestData prompt
    let st1 : State :=
      { lastPrompt := prompt
        calls := st.calls ++ [Call.completion endpoint "application/json" data] }
    match env.Post endpoint "application/json" data with
    | .error err => (.ret ("", some err), st1)
    | .ok resp =>
      if resp.StatusCode ≠ 200 then
        (.ret ("", some ⟨"error: HTTP " ++ toString resp.StatusCode ++
          ", response: " ++ resp.Body⟩), st1)
      else
        match env.Decode resp.Body with
        | .error err => (.ret ("", some err), st1)
        | .ok result => (extractReply result, st1)

/-! ## Relay handler (`handleAppMention`) -/

/-- The mention marker of a bot identity. -/
def marker (botUserID : String) : String :=
  "<@" ++ botUserID ++ ">"

/-- The local variable `prompt` of `handleAppMention`. -/
def derivePrompt (botUserID text : String) : String :=
  if HasPrefix text (marker botUserID) then
    TrimSpace (TrimPrefix text (marker botUserID))
  else
    text

/-- Function `handleAppMention(api, client, w, botUserID, event)`.  What
`api.PostMessage` returns is only printed, so the call is recorded and its
result plays no part. -/
def handleAppMention (env : Env) (st : State) (botUserID : String) (event : MessageEvent) :
    Outcome Unit × State :=
  if event.User = botUserID then
    (.ret (), st)
  else
    let prompt := derivePrompt botUserID event.Text
    if prompt ≠ "" then
      match chatGPTResponse env st prompt with
      | (.panicked, st1) => (.panicked, st1)
      | (.fatal, st1) => (.fatal, st1)
      | (.ret (_, some _), st1) => (.ret (), st1)
      | (.ret (chatGPT, none), st1) =>
        (.ret (), { st1 with calls := st1.calls ++ [Call.postMessage event.Channel chatGPT] })
    else
      (.ret (), st)

/-! ## URL verification and the standalone server (`main.go`) -/

/-- The part of `http.ResponseWriter` the program uses: the status code once it
is written, the header map and the body written so far. -/
structure ResponseWriter where
  status : Option Nat
  header : List (String × String)
  body : String
  deriving DecidableEq, Repr

namespace ResponseWriter

/-- A fresh writer, as `net/http` hands it to a handler. -/
def new : ResponseWriter :=
  { status := none, header := [], body := "" }

/-- Method `w.WriteHeader(code)`: only the first call sets the status. -/
def WriteHeader (w : ResponseWriter) (code : Nat) : ResponseWriter :=
  match w.status with
  | some _ => w
  | none => { w with status := some code }

/-- Method `w.Header().Set(key, value)`. -/
def SetHeader (w : ResponseWriter) (key value : String) : ResponseWriter :=
  { w with header := (key, value) :: w.header.filter fun kv => kv.1 != key }

/-- Method `w.Write(data)`: writes the status 200 first when none was written. -/
def Write (w : ResponseWriter) (data : String) : ResponseWriter :=
  let w1 := w.WriteHeader 200
  { w1 with body := w1.body ++ data }

/-- The status code the client receives: 200 when the handler returned without
writing one. -/
def sentStatus (w : ResponseWriter) : Nat :=
  w.status.getD 200

end ResponseWriter

/-- Function `handleURLVerification(w, r, body)` of `main.go`.  A `nil`
`response` makes `response.Challenge` panic. -/
def handleURLVerification (env : Env) (w : ResponseWriter) (body : String) :
    Outcome ResponseWriter :=
  match env.UnmarshalChallenge body with
  | .error _ => .ret (w.WriteHeader 500)
  | .ok none => .panicked
  | .ok (some response) =>
    .ret ((w.SetHeader "Content-Type" "text").Write response.Challenge)

/-- The closure registered for `/events` in `main` of `main.go`; `botUserID`
is the variable it captures. -/
def eventsHandler (env : Env) (botUserID : String) (st : State) (w : ResponseWriter)
    (body : String) : Outcome ResponseWriter × State :=
  match env.ParseEvent body with
  | .error _ => (.ret (w.WriteHeader 500), st)
  | .ok eventsAPIEvent =>
    if eventsAPIEvent.Typ = URLVerification then
      (handleURLVerification env w body, st)
    else if eventsAPIEvent.Typ = CallbackEvent then
      match eventsAPIEvent.InnerEvent with
      | .appMention ev =>
        if ev.User ≠ botUserID then
          match handleAppMention env st botUserID
              { User := ev.User, Channel := ev.Channel, Text := ev.Text } with
          | (.ret _, st1) => (.ret w, st1)
          | (.panicked, st1) => (.panicked, st1)
          | (.fatal, st1) => (.fatal, st1)
        else
          (.ret w, st)
      | .message ev =>
        if ev.User ≠ botUserID ∧ ev.ChannelType = "im" then
          match handleAppMention env st botUserID ev with
          | (.ret _, st1) => (.ret w, st1)
          | (.panicked, st1) => (.panicked, st1)
          | (.fatal, st1) => (.fatal, st1)
        else
          (.ret w, st)
      | .other => (.ret w, st)
    else
      (.ret w, st)

/-! ## The serverless binding (`caller/main.go`) -/

/-- Type `events.APIGatewayProxyRequest`, the field the program reads. -/
structure APIGatewayProxyRequest where
  Body : String
  deriving DecidableEq, Repr

/-- Type `events.APIGatewayProxyResponse`, the fields the program sets. -/
structure APIGatewayProxyResponse where
  Body : String
  StatusCode : Nat
  deriving DecidableEq, Repr

/-- Function `HandleURLVerification(body)` of `caller/main.go`. -/
def HandleURLVerification (env : Env) (body : String) :
    Option ChallengeResponse × Option GoError :=
  match env.UnmarshalChallenge body with
  | .error err => (none, some err)
  | .ok res => (res, none)

/-- Function `handler(request)` of `caller/main.go`.  In the app-mention case
the call of `handleAppMention` is deferred: it runs once the return values are
set, and a panic in it replaces them. -/
def handler (env : Env) (st : State) (request : APIGatewayProxyRequest) :
    Outcome (APIGatewayProxyResponse × Option GoError) × State :=
  match env.Load with
  | some _ => (.fatal, st)
  | none =>
    let st0 : State := { st with calls := st.calls ++ [Call.authTest] }
    match env.AuthTest with
    | .error _ => (.fatal, st0)
    | .ok botUserID =>
      let body := request.Body
      match env.ParseEvent body with
      | .error err => (.ret ({ Body := "slack conection error", StatusCode := 500 }, some err), st0)
      | .ok eventsAPIEvent =>
        if eventsAPIEvent.Typ = URLVerification then
          match HandleURLVerification env body with
          | (_, some err) =>
            (.ret ({ Body := "slack conection error", StatusCode := 500 }, some err), st0)
          | (none, none) => (.panicked, st0)
          | (some res, none) => (.ret ({ Body := res.Challenge, StatusCode := 200 }, none), st0)
        else if eventsAPIEvent.Typ = CallbackEvent then
          match eventsAPIEvent.InnerEvent with
          | .appMention ev =>
            if ev.User ≠ botUserID then
              match handleAppMention env st0 botUserID
                  { User := ev.User, Channel := ev.Channel, Text := ev.Text } with
              | (.ret _, st1) => (.ret ({ Body := "", StatusCode := 200 }, none), st1)
              | (.panicked, st1) => (.panicked, st1)
              | (.fatal, st1) => (.fatal, st1)
            else
              (.ret ({ Body := "", StatusCode := 200 }, none), st0)
          | .message ev =>
            if ev.User ≠ botUserID ∧ ev.ChannelType = "im" then
              match handleAppMention env st0 botUserID ev with
              | (.ret _, st1) => (.ret ({ Body := "", StatusCode := 200 }, none), st1)
              | (.panicked, st1) => (.panicked, st1)
              | (.fatal, st1) => (.fatal, st1)
            else
              (.ret ({ Body := "", StatusCode := 200 }, none), st0)
          | .other => (.ret ({ Body := "", StatusCode := 200 }, none), st0)
        else
          (.ret ({ Body := "", StatusCode := 200 }, none), st0)

/-! ## Specification vocabulary -/

/-- The string `t` is `s` with its surrounding white space trimmed: `s` is `t`
between two runs of white space, and `t` neither starts nor ends with white
space. -/
def IsTrimOf (s t : String) : Prop :=
  ∃ l r : List Char, s.data = l ++ t.data ++ r ∧
    (∀ c ∈ l, isSpace c = true) ∧ (∀ c ∈ r, isSpace c = true) ∧
    (∀ c, t.data.head? = some c → isSpace c = false) ∧
    (∀ c, t.data.getLast? = some c → isSpace c = false)

/-- The completion calls among a list of outbound calls. -/
def completionCalls (cs : List Call) : List Call :=
  cs.filter fun c => match c with
    | .completion _ _ _ => true
    | _ => false

/-- The chat-platform post calls among a list of outbound calls. -/
def postCalls (cs : List Call) : List Call :=
  cs.filter fun c => match c with
    | .postMessage _ _ => true
    | _ => false

/-- The author identifier of an inner event, when it is a mention or a
message. -/
def InnerData.author : InnerData → Option String
  | .appMention ev => some ev.User
  | .message ev => some ev.User
  | .other => none

/-! ## Collaborators used in the examples -/

/-- A set of collaborators for concrete runs: the completion API answers every
request with `reply`, whose body decodes to `decoded`; every inbound body parses
to `event` and, as a challenge response, to `challenge`; the environment file
loads and the bot identity is `bot`. -/
def stub (reply : Response) (decoded : List (String × JSON)) (event : EventsAPIEvent)
    (challenge : Option ChallengeResponse) (bot : String) : Env :=
  { Post := fun _ _ _ => .ok reply
    Decode := fun _ => .ok decoded
    ParseEvent := fun _ => .ok event
    UnmarshalChallenge := fun _ => .ok challenge
    Load := none
    AuthTest := .ok bot }

/-- The decoded form of a completion response with a single choice whose
message content is `content`. -/
def oneChoice (content : String) : List (String × JSON) :=
  [("choices", .array [.object [("message", .object [("role", .string "assistant"),
    ("content", .string content)])]])]

/-- The decoded form of a completion response with two choices, the first with
white space around its content. -/
def twoChoices : List (String × JSON) :=
  [("choices", .array [.object [("message", .object [("content", .string " Hello! \n")])],
    .object [("message", .object [("content", .string "second")])]])]

/-- An inbound callback envelope holding a direct message. -/
def directMessage (user text : String) : EventsAPIEvent :=
  { Typ := CallbackEvent
    InnerEvent := .message { User := user, Channel := "D1", Text := text, ChannelType := "im" } }

/-- An inbound callback envelope holding an app mention. -/
def mention (user text : String) : EventsAPIEvent :=
  { Typ := CallbackEvent
    InnerEvent := .appMention { User := user, Channel := "C1", Text := text } }

/-! ## Lemmas on strings -/

theorem trimLeft_head (cs : List Char) (c : Char) (h : (trimLeft cs).head? = some c) :
    isSpace c = false := by
  have := List.head?_dropWhile_not isSpace cs
  unfold trimLeft at h
  rw [h] at this
  exact this

theorem trimRight_getLast (cs : List Char) (c : Char) (h : (trimRight cs).getLast? = some c) :
    isSpace c = false := by
  unfold trimRight at h
  rw [List.getLast?_reverse] at h
  have := List.head?_dropWhile_not isSpace cs.reverse
  rw [h] at this
  exact this

theorem trimRight_append (cs : List Char) :
    trimRight cs ++ (cs.reverse.takeWhile isSpace).reverse = cs := by
  unfold trimRight
  rw [← List.reverse_append, List.takeWhile_append_dropWhile, List.reverse_reverse]

theorem trimRight_head (cs : List Char) (c : Char) (h : (trimRight cs).head? = some c) :
    cs.head? = some c := by
  have hne : trimRight cs ≠ [] := by
    intro h0
    rw [h0] at h
    simp at h
  have := @List.head?_append_of_ne_nil Char (trimRight cs)
    (cs.reverse.takeWhile isSpace).reverse hne
  rw [trimRight_append] at this
  rw [this, h]

theorem TrimSpace_isTrimOf (s : String) : IsTrimOf s (TrimSpace s) := by
  refine ⟨s.data.takeWhile isSpace, ((trimLeft s.data).reverse.takeWhile isSpace).reverse,
    ?_, ?_, ?_, ?_, ?_⟩
  · show s.data = _ ++ trimRight (trimLeft s.data) ++ _
    rw [List.append_assoc, trimRight_append]
    exact (List.takeWhile_append_dropWhile isSpace s.data).symm
  · intro c hc
    exact List.mem_takeWhile_imp hc
  · intro c hc
    exact List.mem_takeWhile_imp (List.mem_reverse.mp hc)
  · intro c hc
    exact trimLeft_head s.data c (trimRight_head _ c hc)
  · intro c hc
    exact trimRight_getLast _ c hc

theorem HasPrefix_append (pre rest : String) : HasPrefix (pre ++ rest) pre = true := by
  simp [HasPrefix, String.data_append]

theorem HasPrefix_iff (s pre : String) :
    HasPrefix s pre = true ↔ ∃ rest : String, s = pre ++ rest := by
  constructor
  · intro h
    simp only [HasPrefix, Bool.and_eq_true, decide_eq_true_eq, beq_iff_eq] at h
    refine ⟨⟨s.data.drop pre.data.length⟩, String.ext ?_⟩
    rw [String.data_append]
    conv_lhs => rw [← List.take_append_drop pre.data.length s.data]
    rw [h.2]
  · rintro ⟨rest, rfl⟩
    exact HasPrefix_append pre rest

theorem TrimPrefix_append (pre rest : String) : TrimPrefix (pre ++ rest) pre = rest := by
  rw [TrimPrefix, if_pos (HasPrefix_append pre rest)]
  apply String.ext
  simp [String.data_append]

/-! ## Lemmas on the completion client -/

theorem chatGPTResponse_repeat (env : Env) (st : State) :
    chatGPTResponse env st st.lastPrompt = (.ret ("", none), st) := by
  simp [chatGPTResponse]

theorem chatGPTResponse_lastPrompt (env : Env) (st : State) (prompt : String) :
    (chatGPTResponse env st prompt).2.lastPrompt = prompt := by
  unfold chatGPTResponse
  by_cases h : prompt = st.lastPrompt
  · simp [h]
  · simp only [if_neg h]
    cases env.Post endpoint "application/json" (requestData prompt) with
    | error err => rfl
    | ok resp =>
      by_cases hs : resp.StatusCode ≠ 200
      · simp only [if_pos hs]
      · simp only [if_neg hs]
        cases env.Decode resp.Body <;> rfl

theorem chatGPTResponse_ok (env : Env) (st : State) (prompt : String) (resp : Response)
    (result : List (String × JSON)) (hnew : prompt ≠ st.lastPrompt)
    (hpost : env.Post endpoint "application/json" (requestData prompt) = .ok resp)
    (hstatus : resp.StatusCode = 200) (hdec : env.Decode resp.Body = .ok result) :
    chatGPTResponse env st prompt =
      (extractReply result,
        { lastPrompt := prompt
          calls := st.calls ++
            [Call.completion endpoint "application/json" (requestData prompt)] }) := by
  simp [chatGPTResponse, hnew, hpost, hstatus, hdec]

theorem extractReply_first (result first message : List (String × JSON)) (rest : List JSON)
    (content : String)
    (hchoices : index result "choices" = .array (.object first :: rest))
    (hmessage : index first "message" = .object message)
    (hcontent : index message "content" = .string content) :
    extractReply result = .ret (TrimSpace content, none) := by
  simp [extractReply, hchoices, hmessage, hcontent, assertSlice, assertMap, assertString]

theorem extractReply_empty (result : List (String × JSON))
    (hchoices : index result "choices" = .array []) :
    extractReply result = .ret (fallback, none) := by
  simp [extractReply, hchoices, assertSlice]

theorem chatGPTResponse_upstream_error (env : Env) (st : State) (prompt : String)
    (resp : Response) (hnew : prompt ≠ st.lastPrompt)
    (hpost : env.Post endpoint "application/json" (requestData prompt) = .ok resp)
    (hstatus : resp.StatusCode ≠ 200) :
    chatGPTResponse env st prompt =
      (.ret ("", some ⟨"error: HTTP " ++ toString resp.StatusCode ++ ", response: " ++
          resp.Body⟩),
        { lastPrompt := prompt
          calls := st.calls ++
            [Call.completion endpoint "application/json" (requestData prompt)] }) := by
  simp [chatGPTResponse, hnew, hpost, hstatus]

theorem handleAppMention_of_error (env : Env) (st st1 : State) (B : String)
    (event : MessageEvent) (reply : String) (err : GoError)
    (hauthor : event.User ≠ B) (hprompt : derivePrompt B event.Text ≠ "")
    (hcall : chatGPTResponse env st (derivePrompt B event.Text) = (.ret (reply, some err), st1)) :
    handleAppMention env st B event = (.ret (), st1) := by
  simp [handleAppMention, hauthor, hprompt, hcall]

/-! ## The claims -/

/-- C7: the prompt that `handleAppMention` derives from an event text `T` under
bot identity `B` is the text after the leading marker `<@B>` with its
surrounding white space trimmed when `T` begins with the marker, and `T`
itself otherwise; `<@BOTID> hello` gives `hello`, and `hello` gives `hello`. -/
theorem derivePrompt_spec (B T : String) :
    (∀ rest : String, T = "<@" ++ B ++ ">" ++ rest →
      derivePrompt B T = TrimSpace rest ∧ IsTrimOf rest (derivePrompt B T)) ∧
    ((¬ ∃ rest : String, T = "<@" ++ B ++ ">" ++ rest) → derivePrompt B T = T) ∧
    derivePrompt "BOTID" "<@BOTID> hello" = "hello" ∧
    derivePrompt "BOTID" "hello" = "hello" := by
  refine ⟨?_, ?_, by decide, by decide⟩
  · rintro rest rfl
    have h : derivePrompt B (marker B ++ rest) = TrimSpace rest := by
      rw [derivePrompt, if_pos (HasPrefix_append _ _), TrimPrefix_append]
    exact ⟨h, h ▸ TrimSpace_isTrimOf rest⟩
  · intro hno
    have h : ¬ HasPrefix T (marker B) = true := fun hp => hno ((HasPrefix_iff _ _).mp hp)
    rw [derivePrompt, if_neg h]

/-- Witness of C7: a mention with white space around the request, and a text
that holds the marker but does not begin with it. -/
theorem derivePrompt_spec_witness :
    derivePrompt "BOTID" "<@BOTID>  what is Go? \n" = "what is Go?" ∧
    derivePrompt "BOTID" "hey <@BOTID>" = "hey <@BOTID>" :=
  ⟨((derivePrompt_spec "BOTID" "<@BOTID>  what is Go? \n").1 "  what is Go? \n"
      (by decide)).1.trans (by decide),
   (derivePrompt_spec "BOTID" "hey <@BOTID>").2.1
      (fun h => absurd ((HasPrefix_iff _ _).mpr h) (by decide))⟩

/-- C9: a call of `chatGPTResponse` that is not suppressed and receives a
status-200 response of the expected shape returns, with a nil error, the fixed
apology string when the choices list is empty, and otherwise the message
content of the first choice with its surrounding white space trimmed, whatever
the later choices are. -/
theorem chatGPTResponse_expected_shape (env : Env) (st : State) (prompt : String)
    (resp : Response) (result : List (String × JSON))
    (hnew : prompt ≠ st.lastPrompt)
    (hpost : env.Post endpoint "application/json" (requestData prompt) = .ok resp)
    (hstatus : resp.StatusCode = 200) (hdec : env.Decode resp.Body = .ok result) :
    (index result "choices" = .array [] →
      (chatGPTResponse env st prompt).1 = .ret ("すみません、現在お手伝いできません。", none)) ∧
    (∀ (first message : List (String × JSON)) (rest : List JSON) (content : String),
      index result "choices" = .array (.object first :: rest) →
      index first "message" = .object message →
      index message "content" = .string content →
      ∃ reply, (chatGPTResponse env st prompt).1 = .ret (reply, none) ∧
        IsTrimOf content reply) := by
  rw [chatGPTResponse_ok env st prompt resp result hnew hpost hstatus hdec]
  refine ⟨fun h => extractReply_empty result h, ?_⟩
  intro first message rest content h1 h2 h3
  exact ⟨TrimSpace content, extractReply_first result first message rest content h1 h2 h3,
    TrimSpace_isTrimOf content⟩

/-- Witness of C9: a response with an empty choices list, and a response with
two choices of which the first has white space around its content. -/
theorem chatGPTResponse_expected_shape_witness :
    (chatGPTResponse
        (stub ⟨200, "ok"⟩ [("choices", .array [])] (directMessage "U1" "hi") none "BOT")
        ⟨"", []⟩ "hi").1 = .ret ("すみません、現在お手伝いできません。", none) ∧
    ∃ reply,
      (chatGPTResponse (stub ⟨200, "ok"⟩ twoChoices (directMessage "U1" "hi") none "BOT")
        ⟨"", []⟩ "hi").1 = .ret (reply, none) ∧ IsTrimOf " Hello! \n" reply :=
  ⟨(chatGPTResponse_expected_shape
      (stub ⟨200, "ok"⟩ [("choices", .array [])] (directMessage "U1" "hi") none "BOT")
      ⟨"", []⟩ "hi" ⟨200, "ok"⟩ [("choices", .array [])] (by decide) rfl rfl rfl).1 rfl,
   (chatGPTResponse_expected_shape
      (stub ⟨200, "ok"⟩ twoChoices (directMessage "U1" "hi") none "BOT")
      ⟨"", []⟩ "hi" ⟨200, "ok"⟩ twoChoices (by decide) rfl rfl rfl).2
      [("message", .object [("content", .string " Hello! \n")])]
      [("content", .string " Hello! \n")]
      [.object [("message", .object [("content", .string "second")])]]
      " Hello! \n" rfl rfl rfl⟩

/-- C10: after `chatGPTResponse(P)` the remembered last prompt is `P`, whatever
it was before and however the call ended (suppressed, answered, failed or
panicked); an immediate second call with `P` is therefore suppressed: it returns
the empty string with a nil error and leaves the state, the outbound calls
included, as it was. -/
theorem chatGPTResponse_records_prompt (env : Env) (st : State) (P : String) :
    (chatGPTResponse env st P).2.lastPrompt = P ∧
    chatGPTResponse env (chatGPTResponse env st P).2 P =
      (.ret ("", none), (chatGPTResponse env st P).2) := by
  have h := chatGPTResponse_lastPrompt env st P
  refine ⟨h, ?_⟩
  have h2 := chatGPTResponse_repeat env (chatGPTResponse env st P).2
  rw [h] at h2
  exact h2

/-- The claim C1 fails when the remembered last prompt already equals `P`: with
last prompt `hello`, the first call with `hello` against an API that answers 200
with the reply `Hi there` returns the empty string and makes no request. -/
theorem chatGPTResponse_first_call_suppressed :
    (stub ⟨200, "ok"⟩ (oneChoice "Hi there") (directMessage "U1" "hello") none "BOT").Post
        endpoint "application/json" (requestData "hello") = .ok ⟨200, "ok"⟩ ∧
    extractReply (oneChoice "Hi there") = .ret ("Hi there", none) ∧
    chatGPTResponse
        (stub ⟨200, "ok"⟩ (oneChoice "Hi there") (directMessage "U1" "hello") none "BOT")
        ⟨"hello", []⟩ "hello" = (.ret ("", none), ⟨"hello", []⟩) ∧
    (chatGPTResponse
        (stub ⟨200, "ok"⟩ (oneChoice "Hi there") (directMessage "U1" "hello") none "BOT")
        ⟨"hello", []⟩ "hello").1 ≠ .ret ("Hi there", none) :=
  ⟨rfl, by decide, by decide, by decide⟩

/-- C1 as amended: when the remembered last prompt differs from `P` and the
completion API answers 200 with a reply, the first of two successive calls with
`P` makes the outbound request and returns the reply (the first choice's
content, trimmed); the second returns the empty string with a nil error and
makes no outbound request. -/
theorem chatGPTResponse_twice (env : Env) (st : State) (P : String) (resp : Response)
    (result first message : List (String × JSON)) (rest : List JSON) (content : String)
    (hnew : st.lastPrompt ≠ P)
    (hpost : env.Post endpoint "application/json" (requestData P) = .ok resp)
    (hstatus : resp.StatusCode = 200) (hdec : env.Decode resp.Body = .ok result)
    (hchoices : index result "choices" = .array (.object first :: rest))
    (hmessage : index first "message" = .object message)
    (hcontent : index message "content" = .string content) :
    (chatGPTResponse env st P).1 = .ret (TrimSpace content, none) ∧
    (chatGPTResponse env st P).2.calls =
      st.calls ++ [Call.completion endpoint "application/json" (requestData P)] ∧
    (chatGPTResponse env (chatGPTResponse env st P).2 P).1 = .ret ("", none) ∧
    (chatGPTResponse env (chatGPTResponse env st P).2 P).2.calls =
      (chatGPTResponse env st P).2.calls := by
  have h2 := chatGPTResponse_repeat env (chatGPTResponse env st P).2
  rw [chatGPTResponse_lastPrompt] at h2
  rw [h2]
  rw [chatGPTResponse_ok env st P resp result (Ne.symm hnew) hpost hstatus hdec]
  exact ⟨extractReply_first result first message rest content hchoices hmessage hcontent,
    rfl, rfl, rfl⟩

/-- Witness of C1 as amended: last prompt `bye`, prompt `hello`, reply
`Hi there`. -/
theorem chatGPTResponse_twice_witness :
    (chatGPTResponse
        (stub ⟨200, "ok"⟩ (oneChoice " Hi there ") (directMessage "U1" "hello") none "BOT")
        ⟨"bye", []⟩ "hello").1 = .ret ("Hi there", none) :=
  (chatGPTResponse_twice
    (stub ⟨200, "ok"⟩ (oneChoice " Hi there ") (directMessage "U1" "hello") none "BOT")
    ⟨"bye", []⟩ "hello" ⟨200, "ok"⟩ (oneChoice " Hi there ") _ _ _ " Hi there "
    (by decide) rfl rfl rfl rfl rfl rfl).1.trans (by decide)

/-- C2, the run in which the code departs from the claim: with last prompt
`hello`, a direct message `hello` from another user makes `chatGPTResponse`
return the empty string with a nil error, and `handleAppMention` still makes
the post call, with the empty text; the same happens when the reply is white
space only. -/
theorem handleAppMention_posts_empty_reply :
    chatGPTResponse
        (stub ⟨200, "ok"⟩ (oneChoice "Hi there") (directMessage "U1" "hello") none "BOT")
        ⟨"hello", []⟩ "hello" = (.ret ("", none), ⟨"hello", []⟩) ∧
    handleAppMention
        (stub ⟨200, "ok"⟩ (oneChoice "Hi there") (directMessage "U1" "hello") none "BOT")
        ⟨"hello", []⟩ "BOT" { User := "U1", Channel := "D1", Text := "hello", ChannelType := "im" } =
      (.ret (), ⟨"hello", [Call.postMessage "D1" ""]⟩) ∧
    handleAppMention
        (stub ⟨200, "ok"⟩ (oneChoice " \n") (directMessage "U1" "hello") none "BOT")
        ⟨"", []⟩ "BOT" { User := "U1", Channel := "D1", Text := "hello", ChannelType := "im" } =
      (.ret (), ⟨"hello", [Call.completion endpoint "application/json" (requestData "hello"),
        Call.postMessage "D1" ""]⟩) := by
  refine ⟨by decide, by decide, by decide⟩

/-- C3, the runs in which the code departs from the claim: on a status-200
response whose body is an object without `choices`, has a `choices` that is not
a list, has a first choice without `message`, or has a `content` that is not a
string, `chatGPTResponse` panics, and the panic goes through `handleAppMention`
and both request handlers. -/
theorem chatGPTResponse_panics_on_unexpected_shape :
    (chatGPTResponse (stub ⟨200, "\x7b\x7d"⟩ [] (directMessage "U1" "hi") none "BOT")
      ⟨"", []⟩ "hi").1 = .panicked ∧
    (chatGPTResponse
      (stub ⟨200, "\x7b\"choices\":\"none\"\x7d"⟩ [("choices", .string "none")]
        (directMessage "U1" "hi") none "BOT")
      ⟨"", []⟩ "hi").1 = .panicked ∧
    (chatGPTResponse
      (stub ⟨200, "\x7b\"choices\":[\x7b\x7d]\x7d"⟩ [("choices", .array [.object []])]
        (directMessage "U1" "hi") none "BOT")
      ⟨"", []⟩ "hi").1 = .panicked ∧
    (chatGPTResponse
      (stub ⟨200, "\x7b\"choices\":[\x7b\"message\":\x7b\"content\":1\x7d\x7d]\x7d"⟩
        [("choices", .array [.object [("message", .object [("content", .number "1")])]])]
        (directMessage "U1" "hi") none "BOT")
      ⟨"", []⟩ "hi").1 = .panicked ∧
    (handleAppMention (stub ⟨200, "\x7b\x7d"⟩ [] (directMessage "U1" "hi") none "BOT")
      ⟨"", []⟩ "BOT" { User := "U1", Channel := "D1", Text := "hi", ChannelType := "im" }).1 =
        .panicked ∧
    (eventsHandler (stub ⟨200, "\x7b\x7d"⟩ [] (directMessage "U1" "hi") none "BOT")
      "BOT" ⟨"", []⟩ ResponseWriter.new "event").1 = .panicked ∧
    (handler (stub ⟨200, "\x7b\x7d"⟩ [] (directMessage "U1" "hi") none "BOT")
      ⟨"", []⟩ ⟨"event"⟩).1 = .panicked := by
  refine ⟨by decide, by decide, by decide, by decide, by decide, by decide, by decide⟩

/-- The claim C4 fails for a direct message that is white space only: the
derived prompt `" "` is empty after trimming, yet `handleAppMention` calls the
completion API with it and posts the reply. -/
theorem handleAppMention_whitespace_message_relayed :
    TrimSpace (derivePrompt "BOT" " ") = "" ∧
    handleAppMention
        (stub ⟨200, "ok"⟩ (oneChoice "Hi there") (directMessage "U1" " ") none "BOT")
        ⟨"", []⟩ "BOT" { User := "U1", Channel := "D1", Text := " ", ChannelType := "im" } =
      (.ret (), ⟨" ", [Call.completion endpoint "application/json" (requestData " "),
        Call.postMessage "D1" "Hi there"]⟩) := by
  refine ⟨by decide, by decide⟩

/-- C4 as amended: for every event passed to `handleAppMention`, whether a
mention or a direct message, if the derived prompt is the empty string (the
text is empty, or it is the bot's marker followed by white space only), no
completion-API call and no post call is made: the call returns and the state is
as before. -/
theorem handleAppMention_empty_prompt (env : Env) (st : State) (B : String)
    (event : MessageEvent) (hempty : derivePrompt B event.Text = "") :
    handleAppMention env st B event = (.ret (), st) := by
  unfold handleAppMention
  by_cases hu : event.User = B
  · rw [if_pos hu]
  · rw [if_neg hu]
    simp [hempty]

/-- Witness of C4 as amended: a mention whose text is the marker and a blank. -/
theorem handleAppMention_empty_prompt_witness :
    handleAppMention
        (stub ⟨200, "ok"⟩ (oneChoice "Hi there") (mention "U1" "<@BOT> ") none "BOT")
        ⟨"", []⟩ "BOT" { User := "U1", Channel := "C1", Text := "<@BOT> " } =
      (.ret (), ⟨"", []⟩) :=
  handleAppMention_empty_prompt _ ⟨"", []⟩ "BOT" { User := "U1", Channel := "C1", Text := "<@BOT> " }
    (by decide)

/-- C5: a callback event, app mention or message of any channel type and any
text, whose author is the bot itself makes neither handler call the completion
API or post to the chat platform, and leaves the remembered last prompt as it
was; `handleAppMention` itself returns at once on such an event. -/
theorem self_authored_event_ignored (env : Env) (st : State) (B body : String)
    (w : ResponseWriter) (ev : EventsAPIEvent)
    (hparse : env.ParseEvent body = .ok ev) (htype : ev.Typ = CallbackEvent)
    (hauthor : ev.InnerEvent.author = some B) :
    eventsHandler env B st w body = (.ret w, st) ∧
    (env.AuthTest = .ok B →
      (handler env st ⟨body⟩).2.lastPrompt = st.lastPrompt ∧
      completionCalls (handler env st ⟨body⟩).2.calls = completionCalls st.calls ∧
      postCalls (handler env st ⟨body⟩).2.calls = postCalls st.calls) ∧
    (∀ channel text channelType,
      handleAppMention env st B
        { User := B, Channel := channel, Text := text, ChannelType := channelType } =
        (.ret (), st)) := by
  have hne : ¬ ev.Typ = URLVerification := by rw [htype]; decide
  refine ⟨?_, ?_, ?_⟩
  · unfold eventsHandler
    simp only [hparse, if_neg hne, if_pos htype]
    cases hin : ev.InnerEvent with
    | appMention a =>
      rw [hin] at hauthor
      simp only [InnerData.author, Option.some.injEq] at hauthor
      simp [hauthor]
    | message m =>
      rw [hin] at hauthor
      simp only [InnerData.author, Option.some.injEq] at hauthor
      simp [hauthor]
    | other => rfl
  · intro hauth
    unfold handler
    cases hload : env.Load with
    | some e => simp
    | none =>
      simp only [hauth, hparse, if_neg hne, if_pos htype]
      cases hin : ev.InnerEvent with
      | appMention a =>
        rw [hin] at hauthor
        simp only [InnerData.author, Option.some.injEq] at hauthor
        simp [hauthor, completionCalls, postCalls]
      | message m =>
        rw [hin] at hauthor
        simp only [InnerData.author, Option.some.injEq] at hauthor
        simp [hauthor, completionCalls, postCalls]
      | other => simp [completionCalls, postCalls]
  · intro channel text channelType
    simp [handleAppMention]

/-- Witness of C5: the bot's own direct message, whose text would otherwise be
relayed. -/
theorem self_authored_event_ignored_witness :
    eventsHandler
        (stub ⟨200, "ok"⟩ (oneChoice "Hi there") (directMessage "BOT" "hello") none "BOT")
        "BOT" ⟨"", []⟩ ResponseWriter.new "event" = (.ret ResponseWriter.new, ⟨"", []⟩) :=
  (self_authored_event_ignored
    (stub ⟨200, "ok"⟩ (oneChoice "Hi there") (directMessage "BOT" "hello") none "BOT")
    ⟨"", []⟩ "BOT" "event" ResponseWriter.new (directMessage "BOT" "hello") rfl rfl rfl).1

/-- C6: an inbound envelope that parses with type `url_verification` and
challenge `C` is answered with status 200 and the body `C`, unchanged, by the
`/events` closure and by the serverless `handler`; neither calls the completion
API or posts (the state of the closure is as before, and `handler` has made its
identity lookup only). -/
theorem url_verification_echo (env : Env) (st : State) (B body C : String)
    (ev : EventsAPIEvent)
    (hparse : env.ParseEvent body = .ok ev) (htype : ev.Typ = URLVerification)
    (hchallenge : env.UnmarshalChallenge body = .ok (some ⟨C⟩)) :
    (∃ w, eventsHandler env B st ResponseWriter.new body = (.ret w, st) ∧
      w.sentStatus = 200 ∧ w.body = C) ∧
    (env.Load = none → env.AuthTest = .ok B →
      handler env st ⟨body⟩ =
        (.ret ({ Body := C, StatusCode := 200 }, none),
          { st with calls := st.calls ++ [Call.authTest] })) := by
  refine ⟨⟨(ResponseWriter.new.SetHeader "Content-Type" "text").Write C, ?_, rfl, ?_⟩, ?_⟩
  · simp [eventsHandler, hparse, htype, handleURLVerification, hchallenge]
  · simp [ResponseWriter.Write, ResponseWriter.WriteHeader, ResponseWriter.SetHeader,
      ResponseWriter.new]
  · intro hload hauth
    simp [handler, hload, hauth, hparse, htype, HandleURLVerification, hchallenge]

/-- Witness of C6: a challenge with white space and markup characters. -/
theorem url_verification_echo_witness :
    ∃ w, eventsHandler
        (stub ⟨200, "ok"⟩ [] ⟨URLVerification, .other⟩ (some ⟨" 3eZ<b>&q \n"⟩) "BOT")
        "BOT" ⟨"", []⟩ ResponseWriter.new "event" = (.ret w, ⟨"", []⟩) ∧
      w.sentStatus = 200 ∧ w.body = " 3eZ<b>&q \n" :=
  (url_verification_echo
    (stub ⟨200, "ok"⟩ [] ⟨URLVerification, .other⟩ (some ⟨" 3eZ<b>&q \n"⟩) "BOT")
    ⟨"", []⟩ "BOT" "event" " 3eZ<b>&q \n" ⟨URLVerification, .other⟩ rfl rfl rfl).1

/-- C8: when a qualifying event (author other than the bot, non-empty derived
prompt that is not the remembered one) reaches a completion API that answers
with a status other than 200 and the body `R`, `chatGPTResponse` returns a
non-nil error whose message holds the status code and `R`, `handleAppMention`
returns having made the completion call and no post call, and the inbound
webhook, direct message or app mention, is answered with status 200 by the
`/events` closure and by the serverless `handler`. -/
theorem upstream_error_no_post (env : Env) (st : State) (B : String) (event : MessageEvent)
    (resp : Response)
    (hauthor : event.User ≠ B) (hprompt : derivePrompt B event.Text ≠ "")
    (hnew : derivePrompt B event.Text ≠ st.lastPrompt)
    (hpost : env.Post endpoint "application/json" (requestData (derivePrompt B event.Text)) =
      .ok resp)
    (hstatus : resp.StatusCode ≠ 200) :
    (chatGPTResponse env st (derivePrompt B event.Text)).1 =
      .ret ("", some ⟨"error: HTTP " ++ toString resp.StatusCode ++ ", response: " ++
        resp.Body⟩) ∧
    handleAppMention env st B event =
      (.ret (), { lastPrompt := derivePrompt B event.Text
                  calls := st.calls ++ [Call.completion endpoint "application/json"
                    (requestData (derivePrompt B event.Text))] }) ∧
    (∀ (body : String) (ev : EventsAPIEvent),
      env.ParseEvent body = .ok ev → ev.Typ = CallbackEvent →
      (ev.InnerEvent = .message event ∧ event.ChannelType = "im" ∨
        ev.InnerEvent = .appMention ⟨event.User, event.Channel, event.Text⟩) →
      (∃ w, (eventsHandler env B st ResponseWriter.new body).1 = .ret w ∧
        w.sentStatus = 200 ∧
        postCalls (eventsHandler env B st ResponseWriter.new body).2.calls =
          postCalls st.calls) ∧
      (env.Load = none → env.AuthTest = .ok B →
        (∃ r, (handler env st ⟨body⟩).1 = .ret (r, none) ∧ r.StatusCode = 200) ∧
        postCalls (handler env st ⟨body⟩).2.calls = postCalls st.calls)) := by
  have hc := chatGPTResponse_upstream_error env st _ resp hnew hpost hstatus
  have hh : ∀ (e : MessageEvent) (s0 : State), e.User = event.User → e.Text = event.Text →
      s0.lastPrompt = st.lastPrompt →
      handleAppMention env s0 B e =
        (.ret (), { lastPrompt := derivePrompt B event.Text
                    calls := s0.calls ++ [Call.completion endpoint "application/json"
                      (requestData (derivePrompt B event.Text))] }) := by
    intro e s0 hu ht hl
    have hc0 := chatGPTResponse_upstream_error env s0 (derivePrompt B e.Text) resp
      (by rw [ht, hl]; exact hnew) (by rw [ht]; exact hpost) hstatus
    have := handleAppMention_of_error env s0 _ B e _ _ (by rw [hu]; exact hauthor)
      (by rw [ht]; exact hprompt) hc0
    rw [this, ht]
  refine ⟨by rw [hc], hh event st rfl rfl rfl, ?_⟩
  intro body ev hparse htype hinner
  have hne : ¬ ev.Typ = URLVerification := by rw [htype]; decide
  refine ⟨?_, ?_⟩
  · unfold eventsHandler
    simp only [hparse, if_neg hne, if_pos htype]
    rcases hinner with ⟨hin, him⟩ | hin
    · simp [hin, hauthor, him, hh event st rfl rfl rfl, ResponseWriter.sentStatus,
        ResponseWriter.new, postCalls]
    · simp [hin, hauthor, hh ⟨event.User, event.Channel, event.Text, ""⟩ st rfl rfl rfl,
        ResponseWriter.sentStatus, ResponseWriter.new, postCalls]
  · intro hload hauth
    unfold handler
    simp only [hload, hauth, hparse, if_neg hne, if_pos htype]
    rcases hinner with ⟨hin, him⟩ | hin
    · simp [hin, hauthor, him,
        hh event { st with calls := st.calls ++ [Call.authTest] } rfl rfl rfl, postCalls]
    · simp [hin, hauthor,
        hh ⟨event.User, event.Channel, event.Text, ""⟩
          { st with calls := st.calls ++ [Call.authTest] } rfl rfl rfl, postCalls]

/-- Witness of C8: a direct message `hello` against an API that answers 429 with
the body `rate limited`. -/
theorem upstream_error_no_post_witness :
    (chatGPTResponse
        (stub ⟨429, "rate limited"⟩ [] (directMessage "U1" "hello") none "BOT")
        ⟨"", []⟩ "hello").1 =
      .ret ("", some ⟨"error: HTTP 429, response: rate limited"⟩) :=
  (upstream_error_no_post
    (stub ⟨429, "rate limited"⟩ [] (directMessage "U1" "hello") none "BOT")
    ⟨"", []⟩ "BOT" { User := "U1", Channel := "D1", Text := "hello", ChannelType := "im" }
    ⟨429, "rate limited"⟩ (by decide) (by decide) (by decide) rfl (by decide)).1.trans
    (by decide)

end Relay
